import Mathlib

/-!
Shallow embedding of the trading-journal Flask application (`src/app.py`)
and proofs about the claims of its specification.

Modelling conventions:
* Database tables are Lean lists of rows; SQL `DECIMAL(12,2)` values are
  rationals (decimal values are exact rationals, and SQL aggregation over
  them is exact).
* `SUM(...)` over an empty row set is SQL `NULL`, modelled as `Option`.
* JWT signatures are modelled ideally: a signed token carries the secret
  it was signed with, and `jwt.decode` succeeds exactly when that secret
  equals the verifying secret.
-/

/-- Row of the `user` table (`class User`, app.py:45-54). -/
structure User where
  id : Int
  username : String
  password_hash : String
deriving DecidableEq, Repr

/-- The `type` enum column of `transaction` (`db.Enum('deposit','withdraw')`,
app.py:59). -/
inductive TType where
  | deposit
  | withdraw
deriving DecidableEq, Repr

/-- Row of the `transaction` table (`class Transaction`, app.py:56-61).
The `timestamp` column plays no role in any claim and is omitted from the row. -/
structure Transaction where
  userId : Int
  type : TType
  amount : Rat
deriving DecidableEq, Repr

/-- A calendar date, as produced by `datetime.date`. -/
structure Date where
  year : Int
  month : Nat
  day : Nat
deriving DecidableEq, Repr

/-- Row of the `daily_trade` table (`class DailyTrade`, app.py:63-73). -/
structure DailyTrade where
  userId : Int
  tradeDate : Date
  profit : Rat
  loss : Rat
  reason_profit : String
  reason_loss : String
deriving DecidableEq, Repr

/-! ### Dashboard aggregation (app.py:222-267) -/

/-- The rows of `transaction` belonging to one user:
`.filter(Transaction.user_id==user.id)` (app.py:231). -/
def txRows (txs : List Transaction) (uid : Int) : List Transaction :=
  txs.filter (fun t => t.userId = uid)

/-- SQL `func.sum(case([(Transaction.type=='deposit', Transaction.amount)], else_=0))`
over the user's transactions (app.py:229).  SQL `SUM` over no rows is `NULL`,
hence the `Option`. -/
def dep_amt (txs : List Transaction) (uid : Int) : Option Rat :=
  if (txRows txs uid).isEmpty then none
  else some (((txRows txs uid).map
    (fun t => if t.type = TType.deposit then t.amount else 0)).sum)

/-- SQL `func.sum(case([(Transaction.type=='withdraw', Transaction.amount)], else_=0))`
over the user's transactions (app.py:230). -/
def wd_amt (txs : List Transaction) (uid : Int) : Option Rat :=
  if (txRows txs uid).isEmpty then none
  else some (((txRows txs uid).map
    (fun t => if t.type = TType.withdraw then t.amount else 0)).sum)

/-- The rows of `daily_trade` belonging to one user
(`DailyTrade.query.filter_by(user_id=user.id)`). -/
def dtRows (dts : List DailyTrade) (uid : Int) : List DailyTrade :=
  dts.filter (fun r => r.userId = uid)

/-- Source `db.session.query(func.sum(DailyTrade.profit)).filter(...).scalar() or 0`
(app.py:234-235): `NULL` (no rows) falls back to `0`, and a stored sum of `0`
is also mapped to `0` by Python's `or`, which is value-preserving. -/
def prof_sum (dts : List DailyTrade) (uid : Int) : Rat :=
  (if (dtRows dts uid).isEmpty then none
   else some (((dtRows dts uid).map (fun r => r.profit)).sum)).getD 0

/-- Source `db.session.query(func.sum(DailyTrade.loss)).filter(...).scalar() or 0`
(app.py:236-237). -/
def loss_sum (dts : List DailyTrade) (uid : Int) : Rat :=
  (if (dtRows dts uid).isEmpty then none
   else some (((dtRows dts uid).map (fun r => r.loss)).sum)).getD 0

/-- Source `active_balance = (dep_amt or 0) - (wd_amt or 0) + prof_sum - loss_sum`
(app.py:240). -/
def active_balance (txs : List Transaction) (dts : List DailyTrade) (uid : Int) : Rat :=
  (dep_amt txs uid).getD 0 - (wd_amt txs uid).getD 0 + prof_sum dts uid - loss_sum dts uid

/-- Source `total_pl = prof_sum - loss_sum` (app.py:241). -/
def total_pl (dts : List DailyTrade) (uid : Int) : Rat :=
  prof_sum dts uid - loss_sum dts uid

/-! Spec-side definitions of the four totals, written from the spec's words
("sum of amounts where type=deposit (0 if none)", etc.), to be compared with
the aggregation the code performs. -/

/-- Modelled from the spec: `deposit_total` = sum of amounts where
type=deposit (0 if none). -/
def spec_depositTotal (txs : List Transaction) (uid : Int) : Rat :=
  ((txs.filter (fun t => t.userId = uid ∧ t.type = TType.deposit)).map
    (fun t => t.amount)).sum

/-- Modelled from the spec: `withdraw_total` = sum of amounts where
type=withdraw (0 if none). -/
def spec_withdrawTotal (txs : List Transaction) (uid : Int) : Rat :=
  ((txs.filter (fun t => t.userId = uid ∧ t.type = TType.withdraw)).map
    (fun t => t.amount)).sum

/-- Modelled from the spec: `profit_total` = sum of `DailyTrade.profit`
across the user's rows (0 if none). -/
def spec_profitTotal (dts : List DailyTrade) (uid : Int) : Rat :=
  ((dts.filter (fun r => r.userId = uid)).map (fun r => r.profit)).sum

/-- Modelled from the spec: `loss_total` = sum of `DailyTrade.loss`
across the user's rows (0 if none). -/
def spec_lossTotal (dts : List DailyTrade) (uid : Int) : Rat :=
  ((dts.filter (fun r => r.userId = uid)).map (fun r => r.loss)).sum

theorem sum_case_eq_sum_filter (l : List Transaction) (ty : TType) :
    ((l.map (fun t => if t.type = ty then t.amount else 0)).sum) =
      ((l.filter (fun t => t.type = ty)).map (fun t => t.amount)).sum := by
  induction l with
  | nil => simp
  | cons t rest ih =>
    by_cases h : t.type = ty <;> simp [List.filter_cons, h, ih]

theorem filter_and_eq_filter_filter (txs : List Transaction) (uid : Int) (ty : TType) :
    txs.filter (fun t => t.userId = uid ∧ t.type = ty) =
      (txs.filter (fun t => t.userId = uid)).filter (fun t => t.type = ty) := by
  rw [List.filter_filter]
  apply List.filter_congr
  intro t _
  simp [Bool.and_comm]

theorem dep_amt_getD_eq (txs : List Transaction) (uid : Int) :
    (dep_amt txs uid).getD 0 = spec_depositTotal txs uid := by
  unfold dep_amt spec_depositTotal
  rw [filter_and_eq_filter_filter]
  by_cases h : (txRows txs uid).isEmpty
  · rw [if_pos h]
    unfold txRows at h
    rw [List.isEmpty_iff.mp h]
    rfl
  · rw [if_neg h, sum_case_eq_sum_filter]
    rfl

theorem wd_amt_getD_eq (txs : List Transaction) (uid : Int) :
    (wd_amt txs uid).getD 0 = spec_withdrawTotal txs uid := by
  unfold wd_amt spec_withdrawTotal
  rw [filter_and_eq_filter_filter]
  by_cases h : (txRows txs uid).isEmpty
  · rw [if_pos h]
    unfold txRows at h
    rw [List.isEmpty_iff.mp h]
    rfl
  · rw [if_neg h, sum_case_eq_sum_filter]
    rfl

theorem prof_sum_eq (dts : List DailyTrade) (uid : Int) :
    prof_sum dts uid = spec_profitTotal dts uid := by
  unfold prof_sum spec_profitTotal
  by_cases h : (dtRows dts uid).isEmpty
  · rw [if_pos h]
    unfold dtRows at h
    rw [List.isEmpty_iff.mp h]
    rfl
  · rw [if_neg h]
    rfl

theorem loss_sum_eq (dts : List DailyTrade) (uid : Int) :
    loss_sum dts uid = spec_lossTotal dts uid := by
  unfold loss_sum spec_lossTotal
  by_cases h : (dtRows dts uid).isEmpty
  · rw [if_pos h]
    unfold dtRows at h
    rw [List.isEmpty_iff.mp h]
    rfl
  · rw [if_neg h]
    rfl

/-- C1: for every user, the dashboard computes
`active_balance = deposit_total - withdraw_total + profit_total - loss_total`
and `total_pl = profit_total - loss_total`, where each of the four totals is
the sum over that user's stored rows and is `0` when the user has no matching
rows. -/
theorem dashboard_aggregation_correct (txs : List Transaction)
    (dts : List DailyTrade) (uid : Int) :
    active_balance txs dts uid =
      spec_depositTotal txs uid - spec_withdrawTotal txs uid +
        spec_profitTotal dts uid - spec_lossTotal dts uid ∧
    total_pl dts uid = spec_profitTotal dts uid - spec_lossTotal dts uid := by
  constructor
  · rw [active_balance, dep_amt_getD_eq, wd_amt_getD_eq, prof_sum_eq, loss_sum_eq]
  · rw [total_pl, prof_sum_eq, loss_sum_eq]

/-! ### Dashboard prompt building (app.py:244-257) -/

/-- Source `[r.reason_profit for r in DailyTrade.query.filter_by(user_id=user.id).all()
if r.reason_profit]` (app.py:244-248): Python string truthiness keeps exactly
the non-empty reason strings. -/
def profitReasons (dts : List DailyTrade) (uid : Int) : List String :=
  ((dtRows dts uid).filter (fun r => r.reason_profit ≠ "")).map
    (fun r => r.reason_profit)

/-- Source `[r.reason_loss for r in ... if r.reason_loss]` (app.py:249-253). -/
def lossReasons (dts : List DailyTrade) (uid : Int) : List String :=
  ((dtRows dts uid).filter (fun r => r.reason_loss ≠ "")).map
    (fun r => r.reason_loss)

/-- The prompt passed to the first `call_gemini` (app.py:256). -/
def tipsPrompt (dts : List DailyTrade) (uid : Int) : String :=
  "Generate trading tips from these profit reasons:\n" ++
    String.intercalate "\n" (profitReasons dts uid)

/-- The prompt passed to the second `call_gemini` (app.py:257). -/
def lessonsPrompt (dts : List DailyTrade) (uid : Int) : String :=
  "Generate trading lessons from these loss reasons:\n" ++
    String.intercalate "\n" (lossReasons dts uid)

/-- C10: a string contributes an entry to the newline-joined reason list of
either dashboard prompt exactly when it is the non-empty `reason_profit`
(resp. `reason_loss`) of one of that user's rows; rows with empty reason text
are excluded. -/
theorem dashboard_prompt_reasons (dts : List DailyTrade) (uid : Int) (s : String) :
    (s ∈ profitReasons dts uid ↔
      s ≠ "" ∧ ∃ r ∈ dts, r.userId = uid ∧ r.reason_profit = s) ∧
    (s ∈ lossReasons dts uid ↔
      s ≠ "" ∧ ∃ r ∈ dts, r.userId = uid ∧ r.reason_loss = s) := by
  constructor
  · simp only [profitReasons, dtRows, List.mem_map, List.mem_filter]
    constructor
    · rintro ⟨r, ⟨⟨hr, huid⟩, hne⟩, rfl⟩
      simp only [decide_eq_true_eq] at huid hne
      exact ⟨hne, r, hr, huid, rfl⟩
    · rintro ⟨hne, r, hr, huid, rfl⟩
      exact ⟨r, ⟨⟨hr, by simpa using huid⟩, by simpa using hne⟩, rfl⟩
  · simp only [lossReasons, dtRows, List.mem_map, List.mem_filter]
    constructor
    · rintro ⟨r, ⟨⟨hr, huid⟩, hne⟩, rfl⟩
      simp only [decide_eq_true_eq] at huid hne
      exact ⟨hne, r, hr, huid, rfl⟩
    · rintro ⟨hne, r, hr, huid, rfl⟩
      exact ⟨r, ⟨⟨hr, by simpa using huid⟩, by simpa using hne⟩, rfl⟩

/-! ### Registration (app.py:141-165) -/

/-- Outcome of a POST to `/register`. -/
inductive RegisterResult where
  | conflict400
  | redirectLogin
deriving DecidableEq, Repr

/-- The POST branch of `register` (app.py:143-160), parameterized by the
one-way hash function (`hashlib.sha256(password.encode()).hexdigest()`,
app.py:51).  `newId` stands for the database-assigned primary key of the
inserted row.  `User.query.filter_by(username=username).first()` is
`List.find?`; on conflict nothing is committed. -/
def register (hash : String → String) (users : List User)
    (username password : String) (newId : Int) : RegisterResult × List User :=
  match users.find? (fun u => u.username = username) with
  | some _ => (RegisterResult.conflict400, users)
  | none =>
      (RegisterResult.redirectLogin,
        users ++ [{ id := newId, username := username, password_hash := hash password }])

theorem find?_append_of_none {α : Type} (p : α → Bool) (l1 l2 : List α)
    (h : l1.find? p = none) : (l1 ++ l2).find? p = l2.find? p := by
  induction l1 with
  | nil => rfl
  | cons a rest ih =>
    cases hp : p a with
    | true => simp [List.find?_cons, hp] at h
    | false =>
      simp only [List.find?_cons, hp] at h
      simpa [List.cons_append, List.find?_cons, hp] using ih h

/-- C4: a registration with a fresh username creates exactly one User row
storing the hash of the password; a second registration with the same
username then fails with a conflict (400) regardless of the password
supplied, and the user table is unchanged (no second row is created). -/
theorem register_fresh_then_conflict (hash : String → String) (users : List User)
    (uname p1 : String) (id1 : Int)
    (hfresh : ∀ x ∈ users, x.username ≠ uname) :
    register hash users uname p1 id1 =
      (RegisterResult.redirectLogin,
        users ++ [{ id := id1, username := uname, password_hash := hash p1 }]) ∧
    ∀ p2 id2,
      register hash
          (users ++ [{ id := id1, username := uname, password_hash := hash p1 }])
          uname p2 id2 =
        (RegisterResult.conflict400,
          users ++ [{ id := id1, username := uname, password_hash := hash p1 }]) := by
  have hnone : users.find? (fun u => u.username = uname) = none := by
    rw [List.find?_eq_none]
    intro x hx
    simpa using hfresh x hx
  constructor
  · rw [register, hnone]
  · intro p2 id2
    rw [register, find?_append_of_none _ _ _ hnone]
    simp [List.find?_cons]

/-- Witness for `register_fresh_then_conflict` at a concrete state. -/
theorem register_fresh_then_conflict_witness :
    (∀ x ∈ ([] : List User), x.username ≠ "alice") ∧
    register (fun s => String.append s s) [] "alice" "pw1" 1 =
      (RegisterResult.redirectLogin,
        [{ id := 1, username := "alice", password_hash := String.append "pw1" "pw1" }]) ∧
    register (fun s => String.append s s)
        [{ id := 1, username := "alice", password_hash := String.append "pw1" "pw1" }]
        "alice" "pw2" 2 =
      (RegisterResult.conflict400,
        [{ id := 1, username := "alice", password_hash := String.append "pw1" "pw1" }]) := by
  refine ⟨by simp, ?_⟩
  have h := register_fresh_then_conflict (fun s => String.append s s) []
    "alice" "pw1" 1 (by simp)
  exact ⟨by simpa using h.1, by simpa using h.2 "pw2" 2⟩

/-! ### JWT auth (app.py:76-92) -/

/-- A decoded JWT.  The HS256 signature is modelled ideally: the token
records the secret it was signed with, and verification succeeds exactly when
that secret equals the verifying secret. -/
structure Tok where
  userId : Int
  iat : Nat
  secret : String
deriving DecidableEq, Repr

/-- Source `generate_token` (app.py:76-78): `jwt.encode({'user_id': user_id, 'iat':
datetime.utcnow()}, JWT_SECRET, algorithm='HS256')`. -/
def generate_token (uid : Int) (iat : Nat) (secret : String) : Tok :=
  { userId := uid, iat := iat, secret := secret }

/-- Source `jwt.decode(parts[1], JWT_SECRET, algorithms=['HS256'])` (app.py:86),
parameterized by the wire-format parser `tokOf` (an unparseable string raises
`InvalidTokenError`, modelled as `none`); a parseable token whose signing
secret differs from the verifying secret also raises `InvalidTokenError`. -/
def jwtDecode (tokOf : String → Option Tok) (s : String) (secret : String) : Option Tok :=
  match tokOf s with
  | none => none
  | some t => if t.secret = secret then some t else none

/-- Source `User.query.get(data['user_id'])` (app.py:87): primary-key lookup,
`None` when no such row. -/
def getUser (users : List User) (uid : Int) : Option User :=
  users.find? (fun u => u.id = uid)

/-- The `Char.isspace` set used by Python's `str.split()` with no argument. -/
def pyIsSpace (c : Char) : Bool :=
  c = ' ' ∨ c = '\t' ∨ c = '\n' ∨ c = '\r' ∨ c = '\x0b' ∨ c = '\x0c'

def pySplitGo : List Char → List Char → List String
  | [], acc => if acc.isEmpty then [] else [String.mk acc.reverse]
  | c :: cs, acc =>
    if pyIsSpace c then
      if acc.isEmpty then pySplitGo cs [] else String.mk acc.reverse :: pySplitGo cs []
    else pySplitGo cs (c :: acc)

/-- Python `str.split()` with no argument: split on whitespace runs,
discarding empty fields — `request.headers.get('Authorization','').split()`
(app.py:83). -/
def pySplit (s : String) : List String := pySplitGo s.data []

/-- Outcome of the `auth_required` wrapper (app.py:80-92). -/
inductive AuthOutcome where
  | missingAuth
  | invalidToken
  | handled (user : Option User)
deriving DecidableEq, Repr

/-- Source `auth_required` (app.py:80-92): split the Authorization header; with
exactly two parts whose first is `'Bearer'`, decode; on `InvalidTokenError`
return 401 Invalid token, otherwise set `request.user` to the primary-key
lookup (possibly `None`) and invoke the wrapped view; any other header shape
returns 401 Missing/invalid Authorization header. -/
def auth_required (users : List User) (secret : String)
    (tokOf : String → Option Tok) (authHeader : String) : AuthOutcome :=
  match pySplit authHeader with
  | [p0, p1] =>
    if p0 = "Bearer" then
      match jwtDecode tokOf p1 secret with
      | some t => AuthOutcome.handled (getUser users t.userId)
      | none => AuthOutcome.invalidToken
    else AuthOutcome.missingAuth
  | _ => AuthOutcome.missingAuth

theorem auth_required_split2 (users : List User) (secret : String)
    (tokOf : String → Option Tok) (hdr p0 p1 : String)
    (h : pySplit hdr = [p0, p1]) :
    auth_required users secret tokOf hdr =
      if p0 = "Bearer" then
        (match jwtDecode tokOf p1 secret with
         | some t => AuthOutcome.handled (getUser users t.userId)
         | none => AuthOutcome.invalidToken)
      else AuthOutcome.missingAuth := by
  unfold auth_required
  rw [h]

theorem jwtDecode_of_some (tokOf : String → Option Tok) (s secret : String)
    (t : Tok) (h : tokOf s = some t) :
    jwtDecode tokOf s secret = if t.secret = secret then some t else none := by
  unfold jwtDecode
  rw [h]

theorem jwtDecode_of_none (tokOf : String → Option Tok) (s secret : String)
    (h : tokOf s = none) : jwtDecode tokOf s secret = none := by
  unfold jwtDecode
  rw [h]

/-- C3 counterexample: with an empty user table and a token that parses and
verifies for user id 7, `auth_required` does not fail with any `UserNotFound`
error — the wrapped handler is invoked with `request.user = None`. -/
theorem auth_missing_user_counterexample :
    auth_required [] "s3cret"
      (fun x => if x = "tok" then
        some { userId := 7, iat := 0, secret := "s3cret" } else none)
      "Bearer tok" =
      AuthOutcome.handled none := by
  decide

/-- C3 amended: absent or malformed Authorization header fails as 401
MissingAuth; a failed parse or signature check fails as 401 InvalidToken; a
valid token does not produce any `UserNotFound` failure — the wrapped handler
runs with `request.user` set to the (possibly absent) primary-key lookup of
the embedded user id. -/
theorem auth_required_outcomes (users : List User) (secret : String)
    (tokOf : String → Option Tok) (hdr : String) :
    (¬((pySplit hdr).length = 2 ∧ (pySplit hdr).head? = some "Bearer") →
      auth_required users secret tokOf hdr = AuthOutcome.missingAuth) ∧
    (∀ ts, pySplit hdr = ["Bearer", ts] →
      (tokOf ts = none ∨ ∃ t, tokOf ts = some t ∧ t.secret ≠ secret) →
      auth_required users secret tokOf hdr = AuthOutcome.invalidToken) ∧
    (∀ ts t, pySplit hdr = ["Bearer", ts] → tokOf ts = some t →
      t.secret = secret →
      auth_required users secret tokOf hdr =
        AuthOutcome.handled (getUser users t.userId)) := by
  refine ⟨?_, ?_, ?_⟩
  · intro hne
    rcases h : pySplit hdr with _ | ⟨a, _ | ⟨b, _ | ⟨c, rest⟩⟩⟩
    · unfold auth_required
      rw [h]
    · unfold auth_required
      rw [h]
    · rw [auth_required_split2 users secret tokOf hdr a b h, if_neg]
      intro hab
      exact hne (by rw [h, hab]; exact ⟨rfl, rfl⟩)
    · unfold auth_required
      rw [h]
  · intro ts hsp hbad
    rw [auth_required_split2 users secret tokOf hdr _ _ hsp, if_pos rfl]
    rcases hbad with hnone | ⟨t, ht, hts⟩
    · rw [jwtDecode_of_none tokOf ts secret hnone]
    · rw [jwtDecode_of_some tokOf ts secret t ht, if_neg hts]
  · intro ts t hsp ht hts
    rw [auth_required_split2 users secret tokOf hdr _ _ hsp, if_pos rfl,
      jwtDecode_of_some tokOf ts secret t ht, if_pos hts]

/-- Witness for `auth_required_outcomes`: the three outcomes at concrete
headers, tokens and a one-user table. -/
theorem auth_required_outcomes_witness :
    auth_required [{ id := 1, username := "alice", password_hash := "h" }] "s"
        (fun x => if x = "good" then some { userId := 1, iat := 0, secret := "s" }
          else if x = "bad" then some { userId := 1, iat := 0, secret := "wrong" }
          else none)
        "garbage" =
      AuthOutcome.missingAuth ∧
    auth_required [{ id := 1, username := "alice", password_hash := "h" }] "s"
        (fun x => if x = "good" then some { userId := 1, iat := 0, secret := "s" }
          else if x = "bad" then some { userId := 1, iat := 0, secret := "wrong" }
          else none)
        "Bearer bad" =
      AuthOutcome.invalidToken ∧
    auth_required [{ id := 1, username := "alice", password_hash := "h" }] "s"
        (fun x => if x = "good" then some { userId := 1, iat := 0, secret := "s" }
          else if x = "bad" then some { userId := 1, iat := 0, secret := "wrong" }
          else none)
        "Bearer good" =
      AuthOutcome.handled
        (getUser [{ id := 1, username := "alice", password_hash := "h" }] 1) := by
  refine ⟨?_, ?_, ?_⟩
  · exact (auth_required_outcomes _ _ _ _).1 (by decide)
  · exact (auth_required_outcomes _ _ _ _).2.1 "bad" (by decide)
      (Or.inr ⟨{ userId := 1, iat := 0, secret := "wrong" }, by decide, by decide⟩)
  · exact (auth_required_outcomes _ _ _ _).2.2 "good"
      { userId := 1, iat := 0, secret := "s" } (by decide) (by decide) rfl

/-- C7: a token issued for user A and verified against the issuing secret
resolves the request to a user row whose id is A (so never to a distinct
user B); and a token signed with a secret different from the server's is
always rejected as invalid. -/
theorem token_security (users : List User) (secret : String)
    (tokOf : String → Option Tok) (hdr ts : String) (iat : Nat)
    (A B : Int) (t2 : Tok) (hsp : pySplit hdr = ["Bearer", ts]) :
    (tokOf ts = some (generate_token A iat secret) → A ≠ B →
      auth_required users secret tokOf hdr = AuthOutcome.handled (getUser users A) ∧
      ∀ u, getUser users A = some u → u.id ≠ B) ∧
    (tokOf ts = some t2 → t2.secret ≠ secret →
      auth_required users secret tokOf hdr = AuthOutcome.invalidToken) := by
  constructor
  · intro ht hAB
    constructor
    · rw [auth_required_split2 users secret tokOf hdr _ _ hsp, if_pos rfl,
        jwtDecode_of_some tokOf ts secret _ ht,
        if_pos (show (generate_token A iat secret).secret = secret from rfl)]
      rfl
    · intro u hu
      have := List.find?_some hu
      have hid : u.id = A := by simpa using this
      rw [hid]
      exact hAB
  · intro ht hne
    rw [auth_required_split2 users secret tokOf hdr _ _ hsp, if_pos rfl,
      jwtDecode_of_some tokOf ts secret _ ht, if_neg hne]

/-- Witness for `token_security` at a concrete table, secret and tokens. -/
theorem token_security_witness :
    (auth_required [{ id := 1, username := "alice", password_hash := "h" }] "srv"
        (fun x => if x = "tA" then some (generate_token 1 5 "srv")
          else some { userId := 1, iat := 5, secret := "other" })
        "Bearer tA" =
      AuthOutcome.handled
        (getUser [{ id := 1, username := "alice", password_hash := "h" }] 1) ∧
      ∀ u, getUser [{ id := 1, username := "alice", password_hash := "h" }] 1 = some u →
        u.id ≠ 2) ∧
    auth_required [{ id := 1, username := "alice", password_hash := "h" }] "srv"
        (fun x => if x = "tA" then some (generate_token 1 5 "srv")
          else some { userId := 1, iat := 5, secret := "other" })
        "Bearer tB" =
      AuthOutcome.invalidToken := by
  constructor
  · exact (token_security _ "srv" _ "Bearer tA" "tA" 5 1 2
      { userId := 1, iat := 5, secret := "other" } (by decide)).1 (by decide) (by decide)
  · exact (token_security _ "srv" _ "Bearer tB" "tB" 5 1 2
      { userId := 1, iat := 5, secret := "other" } (by decide)).2 (by decide) (by decide)

/-! ### Gemini adapter (app.py:94-109) -/

/-- A JSON value, as returned by `r.json()`. -/
inductive Json where
  | null
  | str (s : String)
  | num (q : Rat)
  | boolean (b : Bool)
  | arr (elems : List Json)
  | obj (fields : List (String × Json))

/-- Python subscripting `j['k']` on a decoded JSON value: onto a dict it
returns the entry or raises `KeyError` (whose `str` is the quoted key); on a
non-dict it raises `TypeError` (message abbreviated here; no theorem depends
on it). -/
def jsonSubscript (j : Json) (k : String) : Except String Json :=
  match j with
  | Json.obj fields =>
    match fields.find? (fun p => p.1 = k) with
    | some p => Except.ok p.2
    | none => Except.error ("'" ++ k ++ "'")
  | _ => Except.error "object is not subscriptable"

/-- Python subscripting `j[n]` on a decoded JSON value: onto a list it
returns the element or raises `IndexError`; on a non-list it raises
`TypeError`. -/
def jsonIndex (j : Json) (n : Nat) : Except String Json :=
  match j with
  | Json.arr elems =>
    match elems.get? n with
    | some v => Except.ok v
    | none => Except.error "list index out of range"
  | _ => Except.error "object is not subscriptable"

/-- Source `r.json()['candidates'][0]['content']` (app.py:107). -/
def extractContent (body : Json) : Except String Json := do
  let cs ← jsonSubscript body "candidates"
  let c0 ← jsonIndex cs 0
  jsonSubscript c0 "content"

/-- The HTTP response of `requests.post` when no exception was raised:
status code, decoded JSON body, and `errText`, the `str` of the `HTTPError`
that `raise_for_status` would raise for an error status (built by `requests`
from the status code, reason and URL). -/
structure HttpResponse where
  status : Nat
  errText : String
  body : Json

/-- Body extraction and its exception handling: the last line of the `try`
block (app.py:107) under the `except` clause (app.py:108-109). -/
def callGeminiBody (body : Json) : Json :=
  match extractContent body with
  | Except.ok v => v
  | Except.error e => Json.str ("Error calling Gemini API: " ++ e)

/-- The `try` block of `call_gemini` (app.py:102-109) given the outcome of
the network call: a raised exception (`Except.error` with its `str`) or a
response; `r.raise_for_status()` raises `HTTPError` exactly for status codes
in `[400, 600)`. -/
def callGeminiNet (net : Except String HttpResponse) : Json :=
  match net with
  | Except.error e => Json.str ("Error calling Gemini API: " ++ e)
  | Except.ok r =>
    if 400 ≤ r.status ∧ r.status < 600 then
      Json.str ("Error calling Gemini API: " ++ r.errText)
    else callGeminiBody r.body

/-- Source `call_gemini` (app.py:99-109).  `apiKey` is `GEMINI_API_KEY` (absent env
var is `none`); Python's `if not key` treats both `None` and `""` as not
configured, in which case the fixed sentinel is returned and the network is
never consulted. -/
def call_gemini (apiKey : Option String) (net : Except String HttpResponse) : Json :=
  if apiKey.getD "" = "" then Json.str "Gemini API key not configured"
  else callGeminiNet net

theorem callGeminiNet_ok (r : HttpResponse) :
    callGeminiNet (Except.ok r) =
      if 400 ≤ r.status ∧ r.status < 600 then
        Json.str ("Error calling Gemini API: " ++ r.errText)
      else callGeminiBody r.body := rfl

/-- C5: the adapter never raises past its boundary (it is a total function
into `Json`): an unconfigured key yields the fixed sentinel regardless of the
network (no call is made); a raised network exception and an error status
both yield a string embedding the error detail; and an unexpected response
shape is also caught and rendered as an error string. -/
theorem call_gemini_failure_policy :
    (∀ net, call_gemini none net = Json.str "Gemini API key not configured") ∧
    (∀ net, call_gemini (some "") net = Json.str "Gemini API key not configured") ∧
    (∀ k e, k ≠ "" → call_gemini (some k) (Except.error e) =
      Json.str ("Error calling Gemini API: " ++ e)) ∧
    (∀ k r, k ≠ "" → 400 ≤ r.status → r.status < 600 →
      call_gemini (some k) (Except.ok r) =
        Json.str ("Error calling Gemini API: " ++ r.errText)) ∧
    (∀ k r e, k ≠ "" → ¬(400 ≤ r.status ∧ r.status < 600) →
      extractContent r.body = Except.error e →
      call_gemini (some k) (Except.ok r) =
        Json.str ("Error calling Gemini API: " ++ e)) := by
  refine ⟨fun net => rfl, fun net => rfl, ?_, ?_, ?_⟩
  · intro k e hk
    unfold call_gemini
    rw [if_neg (by simpa using hk)]
    rfl
  · intro k r hk h1 h2
    unfold call_gemini
    rw [if_neg (by simpa using hk)]
    rw [callGeminiNet_ok, if_pos (And.intro h1 h2)]
  · intro k r e hk hst hex
    unfold call_gemini
    rw [if_neg (by simpa using hk)]
    rw [callGeminiNet_ok, if_neg hst]
    unfold callGeminiBody
    rw [hex]

/-- Witness for `call_gemini_failure_policy` at concrete inputs. -/
theorem call_gemini_failure_policy_witness :
    call_gemini none (Except.error "boom") = Json.str "Gemini API key not configured" ∧
    call_gemini (some "") (Except.error "boom") = Json.str "Gemini API key not configured" ∧
    call_gemini (some "k") (Except.error "connection refused") =
      Json.str "Error calling Gemini API: connection refused" ∧
    call_gemini (some "k")
        (Except.ok { status := 403, errText := "403 Client Error", body := Json.null }) =
      Json.str "Error calling Gemini API: 403 Client Error" ∧
    call_gemini (some "k")
        (Except.ok { status := 200, errText := "", body := Json.obj [] }) =
      Json.str "Error calling Gemini API: 'candidates'" := by
  refine ⟨call_gemini_failure_policy.1 _, call_gemini_failure_policy.2.1 _,
    call_gemini_failure_policy.2.2.1 "k" "connection refused" (by decide),
    call_gemini_failure_policy.2.2.2.1 "k"
      { status := 403, errText := "403 Client Error", body := Json.null }
      (by decide) (by decide) (by decide),
    call_gemini_failure_policy.2.2.2.2 "k"
      { status := 200, errText := "", body := Json.obj [] } "'candidates'"
      (by decide) (by decide) rfl⟩

/-- C8: on a successful network call (no exception, non-error status), the
adapter returns `r.json()['candidates'][0]['content']` — the content of the
first completion candidate of the endpoint's response. -/
theorem call_gemini_success (k : String) (r : HttpResponse) (v : Json)
    (hk : k ≠ "") (hst : r.status < 400)
    (hv : extractContent r.body = Except.ok v) :
    call_gemini (some k) (Except.ok r) = v := by
  unfold call_gemini
  rw [if_neg (by simpa using hk)]
  rw [callGeminiNet_ok, if_neg (by omega)]
  unfold callGeminiBody
  rw [hv]

/-- Witness for `call_gemini_success`: a concrete 200 response whose first
candidate's content is the string `"hi"`. -/
theorem call_gemini_success_witness :
    call_gemini (some "k")
        (Except.ok { status := 200, errText := "",
                     body := Json.obj [("candidates",
                       Json.arr [Json.obj [("content", Json.str "hi")]])] }) =
      Json.str "hi" :=
  call_gemini_success "k"
    { status := 200, errText := "",
      body := Json.obj [("candidates",
                Json.arr [Json.obj [("content", Json.str "hi")]])] }
    (Json.str "hi") (by decide) (by decide) rfl

/-! ### Daily route (app.py:205-220) -/

/-- Gregorian leap year, as validated by `datetime.date`. -/
def isLeapYear (y : Int) : Bool :=
  y % 4 = 0 ∧ (y % 100 ≠ 0 ∨ y % 400 = 0)

/-- Days in a month, as validated by `datetime.date`. -/
def daysInMonth (y : Int) (m : Nat) : Nat :=
  if m = 2 then (if isLeapYear y then 29 else 28)
  else if m = 4 ∨ m = 6 ∨ m = 9 ∨ m = 11 then 30
  else 31

def digitVal (c : Char) : Nat := c.toNat - '0'.toNat

/-- Source `date.fromisoformat(day)` (app.py:208): accepts exactly `YYYY-MM-DD`
with a valid year (`1..9999`), month and day; anything else raises
`ValueError`, modelled as `none`. -/
def parseIsoDate (s : String) : Option Date :=
  match s.data with
  | [y1, y2, y3, y4, h1, m1, m2, h2, d1, d2] =>
    if y1.isDigit ∧ y2.isDigit ∧ y3.isDigit ∧ y4.isDigit ∧ h1 = '-' ∧
        m1.isDigit ∧ m2.isDigit ∧ h2 = '-' ∧ d1.isDigit ∧ d2.isDigit then
      let y : Int :=
        (digitVal y1 * 1000 + digitVal y2 * 100 + digitVal y3 * 10 + digitVal y4 : Nat)
      let m := 10 * digitVal m1 + digitVal m2
      let d := 10 * digitVal d1 + digitVal d2
      if 1 ≤ y ∧ 1 ≤ m ∧ m ≤ 12 ∧ 1 ≤ d ∧ d ≤ daysInMonth y m then
        some { year := y, month := m, day := d }
      else none
    else none
  | _ => none

/-- Source `DailyTrade.query.filter_by(user_id=..., trade_date=...).first()`
(app.py:209). -/
def findDaily (dts : List DailyTrade) (uid : Int) (d : Date) : Option DailyTrade :=
  dts.find? (fun r => r.userId = uid ∧ r.tradeDate = d)

/-- Overwriting the four mutable fields of the first row matching
`(user_id, trade_date)` (app.py:213-216): SQLAlchemy mutates the object
returned by `.first()` and commits the update. -/
def updateFirst (dts : List DailyTrade) (uid : Int) (d : Date)
    (p l : Rat) (rp rl : String) : List DailyTrade :=
  match dts with
  | [] => []
  | r :: rest =>
    if r.userId = uid ∧ r.tradeDate = d then
      { r with profit := p, loss := l, reason_profit := rp, reason_loss := rl } :: rest
    else r :: updateFirst rest uid d p l rp rl

/-- Outcome of a request to `/daily/<day>` past authentication. -/
inductive DailyOutcome where
  | uncaughtError
  | renderDaily (rec : Option DailyTrade)
  | redirectDashboard
deriving DecidableEq, Repr

inductive HttpMethod where
  | get
  | post
deriving DecidableEq, Repr

/-- The `daily` view body (app.py:205-220) for an authenticated user `uid`.
`date.fromisoformat` runs first; a `ValueError` bubbles out uncaught before
any query runs.  On POST the form's `profit`/`loss` strings are converted to
`DECIMAL(12,2)` by the database; `p`/`l` are the resulting values, `rp`/`rl`
the two reason strings.  Returns the outcome and the resulting
`daily_trade` table. -/
def daily (method : HttpMethod) (dts : List DailyTrade) (uid : Int) (day : String)
    (p l : Rat) (rp rl : String) : DailyOutcome × List DailyTrade :=
  match parseIsoDate day with
  | none => (DailyOutcome.uncaughtError, dts)
  | some d =>
    match method with
    | HttpMethod.get => (DailyOutcome.renderDaily (findDaily dts uid d), dts)
    | HttpMethod.post =>
      match findDaily dts uid d with
      | some _ => (DailyOutcome.redirectDashboard, updateFirst dts uid d p l rp rl)
      | none =>
        (DailyOutcome.redirectDashboard,
          dts ++ [{ userId := uid, tradeDate := d, profit := p, loss := l,
                    reason_profit := rp, reason_loss := rl }])

/-- Number of `daily_trade` rows with the given `(user_id, trade_date)` key;
the schema's `uix_user_date` unique constraint (app.py:71-73) says this is at
most 1 for every key. -/
def keyCount (dts : List DailyTrade) (uid : Int) (d : Date) : Nat :=
  dts.countP (fun r => r.userId = uid ∧ r.tradeDate = d)

/-- C9: an authenticated request to `/daily/<day>` whose day segment is not a
well-formed ISO date fails as a generic uncaught error, not a structured
response, and the `daily_trade` table is neither read nor written (the
returned table is the input table and the outcome carries no row). -/
theorem daily_bad_date (method : HttpMethod) (dts : List DailyTrade) (uid : Int)
    (day : String) (p l : Rat) (rp rl : String)
    (h : parseIsoDate day = none) :
    daily method dts uid day p l rp rl = (DailyOutcome.uncaughtError, dts) := by
  unfold daily
  rw [h]

/-- Witness for `daily_bad_date`: two malformed day segments, one not of the
date shape at all and one with an out-of-range month. -/
theorem daily_bad_date_witness :
    daily HttpMethod.post
        [{ userId := 1, tradeDate := { year := 2024, month := 1, day := 2 },
           profit := 5, loss := 1, reason_profit := "a", reason_loss := "b" }]
        1 "not-a-date" 3 4 "x" "y" =
      (DailyOutcome.uncaughtError,
        [{ userId := 1, tradeDate := { year := 2024, month := 1, day := 2 },
           profit := 5, loss := 1, reason_profit := "a", reason_loss := "b" }]) ∧
    daily HttpMethod.get [] 1 "2024-13-01" 0 0 "" "" =
      (DailyOutcome.uncaughtError, []) := by
  constructor
  · exact daily_bad_date HttpMethod.post _ 1 "not-a-date" 3 4 "x" "y" (by decide)
  · exact daily_bad_date HttpMethod.get [] 1 "2024-13-01" 0 0 "" "" (by decide)

theorem updateFirst_length (dts : List DailyTrade) (uid : Int) (d : Date)
    (p l : Rat) (rp rl : String) :
    (updateFirst dts uid d p l rp rl).length = dts.length := by
  induction dts with
  | nil => rfl
  | cons r rest ih =>
    by_cases hm : r.userId = uid ∧ r.tradeDate = d
    · simp only [updateFirst, if_pos hm, List.length_cons]
    · simp only [updateFirst, if_neg hm, List.length_cons, ih]

theorem updateFirst_keyCount (dts : List DailyTrade) (uid : Int) (d : Date)
    (p l : Rat) (rp rl : String) (u2 : Int) (d2 : Date) :
    keyCount (updateFirst dts uid d p l rp rl) u2 d2 = keyCount dts u2 d2 := by
  induction dts with
  | nil => rfl
  | cons r rest ih =>
    by_cases hm : r.userId = uid ∧ r.tradeDate = d
    · simp only [updateFirst, if_pos hm, keyCount, List.countP_cons]
    · simp only [updateFirst, if_neg hm, keyCount, List.countP_cons]
      unfold keyCount at ih
      rw [ih]

theorem findDaily_none_keyCount_zero (dts : List DailyTrade) (uid : Int) (d : Date)
    (h : findDaily dts uid d = none) : keyCount dts uid d = 0 := by
  rw [keyCount, List.countP_eq_zero]
  intro r hr
  exact List.find?_eq_none.mp h r hr

theorem updateFirst_filter_key (dts : List DailyTrade) (uid : Int) (d : Date)
    (p l : Rat) (rp rl : String)
    (hfound : findDaily dts uid d ≠ none) (hcount : keyCount dts uid d ≤ 1) :
    (updateFirst dts uid d p l rp rl).filter
        (fun r => r.userId = uid ∧ r.tradeDate = d) =
      [{ userId := uid, tradeDate := d, profit := p, loss := l,
         reason_profit := rp, reason_loss := rl }] := by
  induction dts with
  | nil => exact absurd rfl hfound
  | cons r rest ih =>
    by_cases hm : r.userId = uid ∧ r.tradeDate = d
    · have h1 : r.userId = uid := hm.1
      have h2 : r.tradeDate = d := hm.2
      have hrc : rest.countP (fun x => x.userId = uid ∧ x.tradeDate = d) = 0 := by
        unfold keyCount at hcount
        rw [List.countP_cons, if_pos (by simp [h1, h2])] at hcount
        omega
      have hrest : rest.filter (fun x => x.userId = uid ∧ x.tradeDate = d) = [] := by
        rw [← List.length_eq_zero, ← List.countP_eq_length_filter]
        exact hrc
      simp only [updateFirst, if_pos hm, List.filter_cons]
      rw [if_pos (by simp [h1, h2])]
      rw [hrest]
      simp [h1, h2]
    · have hstep : findDaily (r :: rest) uid d = findDaily rest uid d := by
        unfold findDaily
        exact List.find?_cons_of_neg rest (by simp [hm])
      have hc : keyCount rest uid d ≤ 1 := by
        unfold keyCount at hcount ⊢
        rw [List.countP_cons, if_neg (by simp [hm])] at hcount
        omega
      simp only [updateFirst, if_neg hm, List.filter_cons]
      rw [if_neg (by simp [hm])]
      exact ih (fun h0 => hfound (by rw [hstep]; exact h0)) hc

theorem updateFirst_filter_not_key (dts : List DailyTrade) (uid : Int) (d : Date)
    (p l : Rat) (rp rl : String) :
    (updateFirst dts uid d p l rp rl).filter
        (fun r => ¬(r.userId = uid ∧ r.tradeDate = d)) =
      dts.filter (fun r => ¬(r.userId = uid ∧ r.tradeDate = d)) := by
  induction dts with
  | nil => rfl
  | cons r rest ih =>
    by_cases hm : r.userId = uid ∧ r.tradeDate = d
    · have h1 : r.userId = uid := hm.1
      have h2 : r.tradeDate = d := hm.2
      simp only [updateFirst, if_pos hm, List.filter_cons]
      rw [if_neg (by simp [h1, h2]), if_neg (by simp [h1, h2])]
    · simp only [updateFirst, if_neg hm, List.filter_cons]
      rw [if_pos (by simp only [decide_eq_true_eq]; exact hm), if_pos (by simp only [decide_eq_true_eq]; exact hm), ih]

theorem daily_post_eq (dts : List DailyTrade) (uid : Int) (day : String) (d : Date)
    (p l : Rat) (rp rl : String) (h : parseIsoDate day = some d) :
    daily HttpMethod.post dts uid day p l rp rl =
      match findDaily dts uid d with
      | some _ => (DailyOutcome.redirectDashboard, updateFirst dts uid d p l rp rl)
      | none =>
        (DailyOutcome.redirectDashboard,
          dts ++ [{ userId := uid, tradeDate := d, profit := p, loss := l,
                    reason_profit := rp, reason_loss := rl }]) := by
  unfold daily
  rw [h]

/-- C6: a POST to `/daily/<day>` with a valid day, on a table satisfying the
`uix_user_date` invariant (at most one row per `(user_id, trade_date)`),
redirects to the dashboard and: preserves the invariant; when a row for
`(uid, d)` already exists it creates no new row (same length), the unique row
for the key afterwards carries exactly the four submitted field values, and
all other rows are untouched; when no row exists it appends exactly one new
row with the submitted values. -/
theorem daily_post_upsert (dts : List DailyTrade) (uid : Int) (day : String)
    (d : Date) (p l : Rat) (rp rl : String)
    (hd : parseIsoDate day = some d)
    (hinv : ∀ u2 d2, keyCount dts u2 d2 ≤ 1) :
    (daily HttpMethod.post dts uid day p l rp rl).1 = DailyOutcome.redirectDashboard ∧
    (∀ u2 d2, keyCount (daily HttpMethod.post dts uid day p l rp rl).2 u2 d2 ≤ 1) ∧
    (findDaily dts uid d ≠ none →
      (daily HttpMethod.post dts uid day p l rp rl).2.length = dts.length ∧
      (daily HttpMethod.post dts uid day p l rp rl).2.filter
          (fun r => r.userId = uid ∧ r.tradeDate = d) =
        [{ userId := uid, tradeDate := d, profit := p, loss := l,
           reason_profit := rp, reason_loss := rl }] ∧
      (daily HttpMethod.post dts uid day p l rp rl).2.filter
          (fun r => ¬(r.userId = uid ∧ r.tradeDate = d)) =
        dts.filter (fun r => ¬(r.userId = uid ∧ r.tradeDate = d))) ∧
    (findDaily dts uid d = none →
      (daily HttpMethod.post dts uid day p l rp rl).2 =
        dts ++ [{ userId := uid, tradeDate := d, profit := p, loss := l,
                  reason_profit := rp, reason_loss := rl }]) := by
  rcases hf : findDaily dts uid d with _ | r0
  · have he : daily HttpMethod.post dts uid day p l rp rl =
        (DailyOutcome.redirectDashboard,
          dts ++ [{ userId := uid, tradeDate := d, profit := p, loss := l,
                    reason_profit := rp, reason_loss := rl }]) := by
      rw [daily_post_eq dts uid day d p l rp rl hd, hf]
    refine ⟨by rw [he], ?_, ?_, ?_⟩
    · intro u2 d2
      rw [he]
      show keyCount
        (dts ++ [{ userId := uid, tradeDate := d, profit := p, loss := l,
                   reason_profit := rp, reason_loss := rl }]) u2 d2 ≤ 1
      unfold keyCount
      rw [List.countP_append]
      by_cases hk : uid = u2 ∧ d = d2
      · rcases hk with ⟨hk1, hk2⟩
        subst hk1
        subst hk2
        have h0 : keyCount dts uid d = 0 := findDaily_none_keyCount_zero dts uid d hf
        unfold keyCount at h0
        rw [h0]
        simp [List.countP_cons]
      · have hx : List.countP
            (fun (r : DailyTrade) => decide (r.userId = u2 ∧ r.tradeDate = d2))
            [{ userId := uid, tradeDate := d, profit := p, loss := l,
               reason_profit := rp, reason_loss := rl }] = 0 := by
          simp only [List.countP_cons, List.countP_nil]
          rw [if_neg (by simpa using hk)]
        have := hinv u2 d2
        unfold keyCount at this
        omega
    · intro hne
      exact absurd rfl hne
    · intro _
      rw [he]
  · have he : daily HttpMethod.post dts uid day p l rp rl =
        (DailyOutcome.redirectDashboard, updateFirst dts uid d p l rp rl) := by
      rw [daily_post_eq dts uid day d p l rp rl hd, hf]
    refine ⟨by rw [he], ?_, ?_, ?_⟩
    · intro u2 d2
      rw [he]
      show keyCount (updateFirst dts uid d p l rp rl) u2 d2 ≤ 1
      rw [updateFirst_keyCount]
      exact hinv u2 d2
    · intro _
      rw [he]
      refine ⟨updateFirst_length dts uid d p l rp rl, ?_, ?_⟩
      · exact updateFirst_filter_key dts uid d p l rp rl
          (by rw [hf]; simp) (hinv uid d)
      · exact updateFirst_filter_not_key dts uid d p l rp rl
    · intro h0
      exact Option.noConfusion h0

/-- Witness for `daily_post_upsert`: posting to an empty table on a concrete
valid day. -/
theorem daily_post_upsert_witness :
    parseIsoDate "2024-01-02" = some { year := 2024, month := 1, day := 2 } ∧
    (daily HttpMethod.post [] 1 "2024-01-02" 5 2 "good entry" "late exit").1 =
      DailyOutcome.redirectDashboard ∧
    (daily HttpMethod.post [] 1 "2024-01-02" 5 2 "good entry" "late exit").2 =
      [{ userId := 1, tradeDate := { year := 2024, month := 1, day := 2 },
         profit := 5, loss := 2, reason_profit := "good entry",
         reason_loss := "late exit" }] := by
  have h := daily_post_upsert [] 1 "2024-01-02"
    { year := 2024, month := 1, day := 2 } 5 2 "good entry" "late exit"
    (by decide) (fun u2 d2 => by simp [keyCount])
  exact ⟨by decide, h.1, by rw [h.2.2.2 rfl]; rfl⟩
